import Mathlib

/-!
Shallow embedding of the NTLM authentication relay of InsideOutSec/goproxy.

The repository contains two near-duplicate implementations of the relay:
  * `src/ext/auth/ntlm.go` (functions `NTLMAuthMiddleware`,
    `getNTLMClientForHost`, `isNTLMRequired`, `createOutboundRequest`) —
    embedded below in namespace `ExtAuth`;
  * `src/unnamed/part_002` (functions `NTLMAuthMiddleware`,
    `getNTLMClientForHost`, `requiresNTLM`) — embedded below in namespace
    `Part002`.

The HTTP data model (requests, responses, headers) and Go string helpers are
shared.  Header maps are modelled as association lists keyed by the canonical
header key exactly as Go `net/http` stores them (`Www-Authenticate`,
`Proxy-Authenticate`, ...).  The underlying NTLM transport
(`vadimi/go-http-ntlm`, an external library) is abstracted as an oracle
assigning to each round-trip index its outcome: either a response or a
transport error — matching the Go contract of `RoundTrip`, which returns a
non-nil response exactly when the error is nil.  Bodies are modelled as
single-read streams living in an explicit heap, so that aliasing of body
storage between a request and its clone is observable.
-/

/-- Go `strings`: does the character list `hay` start with `pat`? -/
def charsStartWith : List Char → List Char → Bool
  | [], _ => true
  | _ :: _, [] => false
  | p :: ps, h :: hs => p == h && charsStartWith ps hs

/-- Go `strings.Contains` on character lists: `pat` occurs inside `hay`. -/
def charsContain : List Char → List Char → Bool
  | [], pat => pat.isEmpty
  | h :: hs, pat => charsStartWith pat (h :: hs) || charsContain hs pat

/-- Go `strings.Contains s pat`. -/
def stringContains (s pat : String) : Bool :=
  charsContain s.toList pat.toList

/-- Uppercasing of one character (Go `strings.ToUpper`, restricted to the
ASCII range — all that NTLM token detection exercises). -/
def charUpper (c : Char) : Char :=
  if 97 ≤ c.toNat && c.toNat ≤ 122 then Char.ofNat (c.toNat - 32) else c

/-- Go `strings.ToUpper` (ASCII fragment). -/
def stringToUpper (s : String) : String :=
  ⟨s.toList.map charUpper⟩

/-- Go `http.Header` is `map[string][]string`; modelled as an association
list from canonical header keys to value lists. -/
abbrev HeaderMap := List (String × List String)

/-- Direct map index `h[key]`: the values stored under `key`, `[]` if the key
is absent. -/
def headerValues (h : HeaderMap) (key : String) : List String :=
  match h.find? (fun kv => kv.1 == key) with
  | some kv => kv.2
  | none => []

/-- Go `http.Header.Get`: first value stored under the key, `""` if absent. -/
def headerGet (h : HeaderMap) (key : String) : String :=
  (headerValues h key).headD ""

/-- Go `*http.Response`, restricted to the fields the relay reads: status
code, header map, and body text (the synthesized failure response carries a
body string). -/
structure Response where
  statusCode : Nat
  header : HeaderMap
  body : String
deriving DecidableEq

/-- Go `*http.Request`, restricted to the fields `createOutboundRequest`
reads and writes.  `url` stands for `req.URL.String()`; `bodyRef` is the
identity of the single-read body stream (`none` models a nil body). -/
structure Request where
  method : String
  url : String
  header : HeaderMap
  host : String
  requestURI : String
  bodyRef : Option Nat
deriving DecidableEq

/-- Outcome of one `RoundTrip` call: a response, or a transport/network
error (in which case Go returns a nil response). -/
inductive RTOutcome where
  | ok (resp : Response)
  | err
deriving DecidableEq

/-- What the relay handler hands back to goproxy, together with the number
of round trips it performed.  `response = none` models returning a nil
`*http.Response` to the proxy engine. -/
structure RelayResult where
  response : Option Response
  roundTrips : Nat
deriving DecidableEq

/-- goproxy's `ContentTypeText` constant. -/
def contentTypeText : String := "text/plain"

/-- goproxy's `NewResponse(req, contentType, status, body)` helper: a
response with the given status, a `Content-Type` header, and the body. -/
def newResponse (contentType : String) (status : Nat) (body : String) : Response :=
  { statusCode := status, header := [("Content-Type", [contentType])], body := body }

/-- The synthesized local failure response: 407 Proxy Authentication
Required with plain-text body "NTLM Authentication Failed". -/
def resp407 : Response :=
  newResponse contentTypeText 407 "NTLM Authentication Failed"

/-- Go `NTLMAuth`: credentials plus the retry budget. -/
structure NTLMAuth where
  domain : String
  username : String
  password : String
  maxRetries : Nat
deriving DecidableEq

namespace ExtAuth

/-- Embedding of `isNTLMRequired` from `src/ext/auth/ntlm.go`: scans the values stored
under the canonical key `Www-Authenticate` (and only that key), and reports
true when some value, uppercased, contains "NTLM". -/
def isNTLMRequired (resp : Response) : Bool :=
  (headerValues resp.header "Www-Authenticate").any
    (fun header => stringContains (stringToUpper header) "NTLM")

/-- Go `net/http` token characters, used by `validMethod` inside
`http.NewRequest`. -/
def isTokenChar (c : Char) : Bool :=
  c.isAlphanum || "!#$%&*+-.^_|~".toList.contains c ||
  c == Char.ofNat 39 || c == Char.ofNat 96

/-- Go `net/http.validMethod`: a method is valid when nonempty and made of
token characters. -/
def validMethod (m : String) : Bool :=
  !m.isEmpty && m.toList.all isTokenChar

/-- Embedding of `createOutboundRequest` from `src/ext/auth/ntlm.go`.
`http.NewRequest(req.Method, req.URL.String(), req.Body)` fails on an
invalid method (the URL string, coming from an already parsed URL, is taken
to re-parse); on success the new request carries the SAME body stream
(`req.Body` is passed by reference, `NewRequest` only wraps the reader — no
draining or buffering happens).  Then the code copies the header map
(`req.Header.Clone()`), copies `req.Host`, and clears `RequestURI`. -/
def createOutboundRequest (req : Request) : Except String Request :=
  if validMethod req.method then
    .ok { method := req.method, url := req.url, header := req.header,
          host := req.host, requestURI := "", bodyRef := req.bodyRef }
  else
    .error "net/http: invalid method"

/-- The retry loop of `NTLMAuthMiddleware` in `src/ext/auth/ntlm.go`
(`for attempt := 0; attempt < auth.MaxRetries; attempt++`).  Each iteration
re-resolves the cached client (idempotent; resolution is modelled separately
and does not affect the round-trip oracle), re-runs `createOutboundRequest`
(returning the synthesized 407 on error), and performs one round trip:
  * on transport error Go executes `continue`, with `resp` now nil;
  * a non-401 response is returned at once;
  * a 401 response (NTLM or not — the loop never re-checks the header)
    loops again.
When the budget is exhausted the loop falls through and the middleware
returns the last `resp` value, which is nil when the final attempt erred.
`attemptsLeft` counts remaining iterations, `count` the round trips already
performed (the next oracle index), `last` the current `resp` value. -/
def retryLoop (req : Request) (oracle : Nat → RTOutcome) :
    (attemptsLeft : Nat) → (count : Nat) → (last : Option Response) → RelayResult
  | 0, count, last => ⟨last, count⟩
  | n + 1, count, _last =>
    match createOutboundRequest req with
    | .error _ => ⟨some resp407, count⟩
    | .ok _ =>
      match oracle count with
      | .err => retryLoop req oracle n (count + 1) none
      | .ok resp =>
        if resp.statusCode ≠ 401 then ⟨some resp, count + 1⟩
        else retryLoop req oracle n (count + 1) (some resp)

/-- Embedding of the handler of `NTLMAuthMiddleware` from `src/ext/auth/ntlm.go`:
clone the inbound request (407 on clone error), perform the first round
trip (407 on transport error), and when the response is a 401 whose
`Www-Authenticate` announces NTLM, run the bounded retry loop; any other
first response is handed back as-is. -/
def NTLMAuthMiddleware (auth : NTLMAuth) (req : Request)
    (oracle : Nat → RTOutcome) : RelayResult :=
  match createOutboundRequest req with
  | .error _ => ⟨some resp407, 0⟩
  | .ok _ =>
    match oracle 0 with
    | .err => ⟨some resp407, 1⟩
    | .ok resp =>
      if resp.statusCode == 401 && isNTLMRequired resp then
        retryLoop req oracle auth.maxRetries 1 (some resp)
      else ⟨some resp, 1⟩

end ExtAuth

namespace Part002

/-- Embedding of `requiresNTLM` from `src/unnamed/part_002`: request-header-based
detection — true when the first `Proxy-Authorization` or `Authorization`
value of the INBOUND request contains "NTLM" (case-sensitive). -/
def requiresNTLM (req : Request) : Bool :=
  stringContains (headerGet req.header "Proxy-Authorization") "NTLM" ||
  stringContains (headerGet req.header "Authorization") "NTLM"

/-- The retry loop of `NTLMAuthMiddleware` in `src/unnamed/part_002`
(`for attempt := 0; attempt <= auth.MaxRetries; attempt++`), sending the
inbound request itself (no clone).  On transport error the loop breaks and
the code after it returns the synthesized 407; a non-401 response is
returned; a 401 response at the last attempt (`attempt == auth.MaxRetries`)
is returned as the server's final rejection; otherwise the client is
re-resolved and the loop continues.  `attemptsLeft = maxRetries - attempt`. -/
def retryLoop (oracle : Nat → RTOutcome) :
    (attemptsLeft : Nat) → (count : Nat) → RelayResult
  | 0, count =>
    match oracle count with
    | .err => ⟨some resp407, count + 1⟩
    | .ok resp => ⟨some resp, count + 1⟩
  | n + 1, count =>
    match oracle count with
    | .err => ⟨some resp407, count + 1⟩
    | .ok resp =>
      if resp.statusCode ≠ 401 then ⟨some resp, count + 1⟩
      else retryLoop oracle n (count + 1)

/-- Embedding of the handler of `NTLMAuthMiddleware` from `src/unnamed/part_002`: when the
inbound request's own headers mention NTLM, run the retry loop; otherwise
return `(req, nil)` — pass through, zero round trips. -/
def NTLMAuthMiddleware (auth : NTLMAuth) (req : Request)
    (oracle : Nat → RTOutcome) : RelayResult :=
  if requiresNTLM req then retryLoop oracle auth.maxRetries 0
  else ⟨none, 0⟩

end Part002

/-! ## The per-host client cache (`ntlmClientCache`, `getNTLMClientForHost`)

Both variants share this code verbatim.  `sync.Map` is modelled as an
association list with overwrite-on-store semantics; heap allocation of a
fresh `*http.Client` is modelled by an allocation counter, and the
allocation id stands for the pointer, so agreement of `objId` is reference
equality.  The base transport (`ctx.Proxy.Tr`) is likewise identified by a
number. -/

/-- Embedding of `httpntlm.NtlmTransport`: the fields `getNTLMClientForHost` fills in. -/
structure NtlmTransport where
  domain : String
  user : String
  password : String
  roundTripper : Nat
deriving DecidableEq

/-- Go `*http.Client` as built by `getNTLMClientForHost`: the NTLM transport,
the `Timeout` field (set to 0 = indefinite), and the allocation id of the
heap object (pointer identity). -/
structure HTTPClient where
  transport : NtlmTransport
  timeout : Nat
  objId : Nat
deriving DecidableEq

/-- Go `sync.Map.Load`: the client stored for `host`, if any. -/
def lookupEntry (entries : List (String × HTTPClient)) (host : String) :
    Option HTTPClient :=
  match entries.find? (fun e => e.1 == host) with
  | some e => some e.2
  | none => none

/-- Go `sync.Map.Store`: map-overwrite — the new binding replaces any old
binding of the same host. -/
def storeEntry (entries : List (String × HTTPClient)) (host : String)
    (c : HTTPClient) : List (String × HTTPClient) :=
  (host, c) :: entries.filter (fun e => !(e.1 == host))

/-- The `ntlmClientCache` map together with the allocation counter. -/
structure CacheState where
  entries : List (String × HTTPClient)
  nextObj : Nat
deriving DecidableEq

/-- The client literal constructed by `getNTLMClientForHost` on a cache
miss: an `NtlmTransport` holding the caller's credentials and base
transport, wrapped in an `http.Client` with `Timeout: 0`. -/
def mkNtlmClient (auth : NTLMAuth) (base : Nat) (objId : Nat) : HTTPClient :=
  { transport := { domain := auth.domain, user := auth.username,
                   password := auth.password, roundTripper := base },
    timeout := 0, objId := objId }

/-- Embedding of `getNTLMClientForHost` from `src/ext/auth/ntlm.go` (identical in
`src/unnamed/part_002`), sequential semantics: `Load`, and on a miss
construct a fresh client and `Store` it.  Returns the client handed to the
caller and the cache state afterwards. -/
def getNTLMClientForHost (host : String) (base : Nat) (auth : NTLMAuth)
    (st : CacheState) : HTTPClient × CacheState :=
  match lookupEntry st.entries host with
  | some c => (c, st)
  | none =>
    let client := mkNtlmClient auth base st.nextObj
    (client, { entries := storeEntry st.entries host client,
               nextObj := st.nextObj + 1 })

/-- A sequence of `getNTLMClientForHost` calls for one fixed host, each with
its own base transport and credentials; returns the clients handed out, in
order, and the final cache state. -/
def runSeqCalls (host : String) (st : CacheState) :
    List (Nat × NTLMAuth) → List HTTPClient × CacheState
  | [] => ([], st)
  | (base, auth) :: rest =>
    let (c, st1) := getNTLMClientForHost host base auth st
    let (cs, st2) := runSeqCalls host st1 rest
    (c :: cs, st2)

/-- A sequence of `getNTLMClientForHost` calls for arbitrary hosts and
arguments; returns only the final cache state. -/
def runAnyCalls (st : CacheState) :
    List (String × Nat × NTLMAuth) → CacheState
  | [] => st
  | (host, base, auth) :: rest =>
    runAnyCalls (getNTLMClientForHost host base auth st).2 rest

/-! ### Concurrent semantics of `getNTLMClientForHost`

In Go the body is three separately atomic actions on the shared
`ntlmClientCache`: the `sync.Map.Load`, the construction of the client
(heap allocation), and the `sync.Map.Store`.  Nothing makes the triple
atomic (no `LoadOrStore`, no mutex).  The model below runs two threads,
each executing those actions in program order for the same host, under an
explicit schedule. -/

/-- Program position of one thread inside `getNTLMClientForHost`:
before the `Load`; after the `Load` (holding its result); after constructing
a fresh client on a miss; returned (holding the client it hands out). -/
inductive Phase where
  | start
  | checked (hit : Option HTTPClient)
  | built (c : HTTPClient)
  | done (c : HTTPClient)
deriving DecidableEq

/-- Two threads, each running `getNTLMClientForHost host base auth`, plus
the shared cache. -/
structure ConcState where
  cache : CacheState
  p1 : Phase
  p2 : Phase
deriving DecidableEq

/-- One atomic action of one thread: `Load`, or construct, or `Store` and
return, or return directly on a hit. -/
def phaseStep (host : String) (base : Nat) (auth : NTLMAuth)
    (p : Phase) (cache : CacheState) : Phase × CacheState :=
  match p with
  | .start => (.checked (lookupEntry cache.entries host), cache)
  | .checked (some c) => (.done c, cache)
  | .checked none =>
      (.built (mkNtlmClient auth base cache.nextObj),
       { cache with nextObj := cache.nextObj + 1 })
  | .built c =>
      (.done c, { cache with entries := storeEntry cache.entries host c })
  | .done c => (.done c, cache)

/-- Run one scheduled step: `true` steps thread 1, `false` thread 2. -/
def schedStep (host : String) (base : Nat) (auth : NTLMAuth)
    (tid : Bool) (s : ConcState) : ConcState :=
  if tid then
    let (p, cache) := phaseStep host base auth s.p1 s.cache
    { cache := cache, p1 := p, p2 := s.p2 }
  else
    let (p, cache) := phaseStep host base auth s.p2 s.cache
    { cache := cache, p1 := s.p1, p2 := p }

/-- Run a whole schedule. -/
def runSched (host : String) (base : Nat) (auth : NTLMAuth) :
    List Bool → ConcState → ConcState
  | [], s => s
  | tid :: rest, s =>
    runSched host base auth rest (schedStep host base auth tid s)

/-! ## Body streams

`req.Body` is a single-read stream.  The heap maps stream ids to streams; a
stream is its byte content plus the read position.  Transmitting a request
(`RoundTrip`) drains the stream its `bodyRef` points at. -/

/-- A single-read body stream: content and current read position. -/
structure BodyStream where
  bytes : List Nat
  pos : Nat
deriving DecidableEq

/-- The heap of live body streams. -/
abbrev StreamHeap := List (Nat × BodyStream)

/-- Read a stream to exhaustion: yields the bytes not yet consumed and
leaves the position at the end. -/
def readAllBody (heap : StreamHeap) (ref : Option Nat) :
    List Nat × StreamHeap :=
  match ref with
  | none => ([], heap)
  | some r =>
    match heap.find? (fun e => e.1 == r) with
    | none => ([], heap)
    | some (_, s) =>
      (s.bytes.drop s.pos,
       heap.map (fun e =>
         if e.1 == r then (r, { bytes := s.bytes, pos := s.bytes.length })
         else e))

/-- Transmitting a request over a transport drains its body stream; the
bytes put on the wire are the stream's remaining bytes. -/
def sendBody (heap : StreamHeap) (req : Request) : List Nat × StreamHeap :=
  readAllBody heap req.bodyRef

/-! ## Derived definitions and concrete fixtures -/

/-- The challenge test exactly as the call site in `NTLMAuthMiddleware`
(`src/ext/auth/ntlm.go`, line 55) performs it:
`resp.StatusCode == http.StatusUnauthorized && isNTLMRequired(resp)`. -/
def ExtAuth.isChallenge (resp : Response) : Bool :=
  resp.statusCode == 401 && ExtAuth.isNTLMRequired resp

/-- The challenge detector as the spec words it (for comparison with the
code's `isChallenge`): status 401 and at least one `WWW-Authenticate` or
`Proxy-Authenticate` value containing the case-insensitive token "NTLM". -/
def isChallengeSpec (resp : Response) : Bool :=
  resp.statusCode == 401 &&
  ((headerValues resp.header "Www-Authenticate").any
      (fun v => stringContains (stringToUpper v) "NTLM") ||
   (headerValues resp.header "Proxy-Authenticate").any
      (fun v => stringContains (stringToUpper v) "NTLM"))

/-- A 401 response announcing NTLM in `WWW-Authenticate`. -/
def challEx : Response :=
  { statusCode := 401, header := [("Www-Authenticate", ["NTLM"])], body := "" }

/-- A 401 response with a Basic challenge only — not an NTLM challenge. -/
def basicEx : Response :=
  { statusCode := 401, header := [("Www-Authenticate", ["Basic realm=x"])],
    body := "" }

/-- A plain 200 response. -/
def okEx : Response := { statusCode := 200, header := [], body := "ok" }

/-- An ordinary inbound request (valid method; carries an NTLM
`Authorization` header so that the `part_002` variant engages as well). -/
def reqEx : Request :=
  { method := "GET", url := "http://example.test/",
    header := [("Authorization", ["NTLM TlRMTVNTUAAB"])],
    host := "example.test", requestURI := "/", bodyRef := none }

/-- Concrete credentials with a retry budget of 2. -/
def authEx : NTLMAuth :=
  { domain := "CORP", username := "alice", password := "pw", maxRetries := 2 }

/-- Concrete credentials with a retry budget of 1. -/
def authOne : NTLMAuth :=
  { domain := "CORP", username := "alice", password := "pw", maxRetries := 1 }

/-! ## Claim C3 — challenge detection -/

/-- Counterexample to claim C3: a 401 response whose only challenge header
is `Proxy-Authenticate: NTLM` is an NTLM challenge per the claim, but the
code's detector (`isNTLMRequired`, consulted only on 401 responses) scans
only `Www-Authenticate` values and reports false. -/
theorem C3_counterexample :
    isChallengeSpec
      { statusCode := 401, header := [("Proxy-Authenticate", ["NTLM"])],
        body := "" } = true ∧
    ExtAuth.isChallenge
      { statusCode := 401, header := [("Proxy-Authenticate", ["NTLM"])],
        body := "" } = false := by
  decide

/-- C3 (amended): the code reports an NTLM challenge exactly when the
response status is 401 and at least one `Www-Authenticate` header value
contains the case-insensitive token "NTLM"; `Proxy-Authenticate` values are
never consulted. -/
theorem C3_amended (resp : Response) :
    ExtAuth.isChallenge resp = true ↔
      (resp.statusCode = 401 ∧
       ∃ v ∈ headerValues resp.header "Www-Authenticate",
         stringContains (stringToUpper v) "NTLM" = true) := by
  simp [ExtAuth.isChallenge, ExtAuth.isNTLMRequired, Bool.and_eq_true,
        List.any_eq_true, beq_iff_eq]

/-! ## Round-trip counting -/

/-- The `ext/auth` retry loop performs at most `attemptsLeft` further round
trips beyond the `count` already performed. -/
theorem ExtAuth.retryLoop_roundTrips_le (req : Request) (oracle : Nat → RTOutcome) :
    ∀ (n count : Nat) (last : Option Response),
      (ExtAuth.retryLoop req oracle n count last).roundTrips ≤ count + n := by
  intro n
  induction n with
  | zero =>
    intro count last
    simp [ExtAuth.retryLoop]
  | succ n ih =>
    intro count last
    simp only [ExtAuth.retryLoop]
    cases hc : ExtAuth.createOutboundRequest req with
    | error e =>
      show count ≤ count + (n + 1)
      omega
    | ok out =>
      cases ho : oracle count with
      | err =>
        show (ExtAuth.retryLoop req oracle n (count + 1) none).roundTrips ≤ count + (n + 1)
        have h := ih (count + 1) none
        omega
      | ok r =>
        show (if r.statusCode ≠ 401 then (⟨some r, count + 1⟩ : RelayResult)
              else ExtAuth.retryLoop req oracle n (count + 1) (some r)).roundTrips ≤
             count + (n + 1)
        split
        · show count + 1 ≤ count + (n + 1)
          omega
        · have h := ih (count + 1) (some r)
          omega

/-- The `part_002` retry loop performs at most `attemptsLeft + 1` further
round trips beyond the `count` already performed. -/
theorem Part002.retryLoop_roundTrips_bound (oracle : Nat → RTOutcome) :
    ∀ (n count : Nat),
      (Part002.retryLoop oracle n count).roundTrips ≤ count + n + 1 := by
  intro n
  induction n with
  | zero =>
    intro count
    simp only [Part002.retryLoop]
    cases ho : oracle count with
    | err => show count + 1 ≤ count + 0 + 1; omega
    | ok r => show count + 1 ≤ count + 0 + 1; omega
  | succ n ih =>
    intro count
    simp only [Part002.retryLoop]
    cases ho : oracle count with
    | err => show count + 1 ≤ count + (n + 1) + 1; omega
    | ok r =>
      show (if r.statusCode ≠ 401 then (⟨some r, count + 1⟩ : RelayResult)
            else Part002.retryLoop oracle n (count + 1)).roundTrips ≤
           count + (n + 1) + 1
      split
      · show count + 1 ≤ count + (n + 1) + 1
        omega
      · have h := ih (count + 1)
        omega

/-- C2 (confirmed): for every request, retry budget, and upstream behaviour
— including one that answers every round trip with a 401 NTLM challenge —
both middleware variants perform at most `maxRetries + 1` round trips. -/
theorem C2_round_trip_budget (auth : NTLMAuth) (req : Request)
    (oracle : Nat → RTOutcome) :
    (ExtAuth.NTLMAuthMiddleware auth req oracle).roundTrips ≤ auth.maxRetries + 1 ∧
    (Part002.NTLMAuthMiddleware auth req oracle).roundTrips ≤ auth.maxRetries + 1 := by
  constructor
  · simp only [ExtAuth.NTLMAuthMiddleware]
    cases hc : ExtAuth.createOutboundRequest req with
    | error e =>
      show 0 ≤ auth.maxRetries + 1
      omega
    | ok out =>
      cases ho : oracle 0 with
      | err =>
        show 1 ≤ auth.maxRetries + 1
        omega
      | ok r =>
        show (if r.statusCode == 401 && ExtAuth.isNTLMRequired r then
                ExtAuth.retryLoop req oracle auth.maxRetries 1 (some r)
              else (⟨some r, 1⟩ : RelayResult)).roundTrips ≤ auth.maxRetries + 1
        split
        · have h := ExtAuth.retryLoop_roundTrips_le req oracle auth.maxRetries 1 (some r)
          omega
        · show 1 ≤ auth.maxRetries + 1
          omega
  · simp only [Part002.NTLMAuthMiddleware]
    split
    · have h := Part002.retryLoop_roundTrips_bound oracle auth.maxRetries 0
      omega
    · show 0 ≤ auth.maxRetries + 1
      omega

/-! ## Behaviour under a server that always challenges -/

/-- With a valid method, `createOutboundRequest` succeeds with the copied
request. -/
theorem ExtAuth.createOutboundRequest_ok (req : Request)
    (h : ExtAuth.validMethod req.method = true) :
    ExtAuth.createOutboundRequest req =
      .ok { method := req.method, url := req.url, header := req.header,
            host := req.host, requestURI := "", bodyRef := req.bodyRef } := by
  simp [ExtAuth.createOutboundRequest, h]

/-- When every round trip yields a 401 response, the `ext/auth` retry loop
runs its full budget and ends holding the response of the last round trip. -/
theorem ExtAuth.retryLoop_all_unauthorized (req : Request)
    (oracle : Nat → RTOutcome) (r : Nat → Response)
    (hvalid : ExtAuth.validMethod req.method = true)
    (hok : ∀ i, oracle i = .ok (r i)) (h401 : ∀ i, (r i).statusCode = 401) :
    ∀ (n count : Nat) (last : Option Response),
      ExtAuth.retryLoop req oracle (n + 1) count last =
        ⟨some (r (count + n)), count + n + 1⟩ := by
  intro n
  induction n with
  | zero =>
    intro count last
    simp only [ExtAuth.retryLoop, ExtAuth.createOutboundRequest_ok req hvalid,
               hok count, h401 count]
    simp [ExtAuth.retryLoop]
  | succ n ih =>
    intro count last
    rw [show count + (n + 1) = (count + 1) + n from by omega]
    rw [← ih (count + 1) (some (r count))]
    simp only [ExtAuth.retryLoop, ExtAuth.createOutboundRequest_ok req hvalid,
               hok count, h401 count]
    simp

/-- When every round trip yields a 401 response, the `part_002` retry loop
runs its full budget and returns the response of the last round trip. -/
theorem Part002.retryLoop_always_unauthorized (oracle : Nat → RTOutcome)
    (r : Nat → Response)
    (hok : ∀ i, oracle i = .ok (r i)) (h401 : ∀ i, (r i).statusCode = 401) :
    ∀ (n count : Nat),
      Part002.retryLoop oracle n count = ⟨some (r (count + n)), count + n + 1⟩ := by
  intro n
  induction n with
  | zero =>
    intro count
    simp [Part002.retryLoop, hok count]
  | succ n ih =>
    intro count
    rw [show count + (n + 1) = (count + 1) + n from by omega]
    rw [← ih (count + 1)]
    simp [Part002.retryLoop, hok count, h401 count]

/-- C6 (confirmed): when every round trip produces a 401 NTLM challenge,
both variants exhaust the budget of `maxRetries + 1` round trips and return
the response received on the last round trip itself, not a synthesized
error.  Instantiating `maxRetries := 1` gives exactly 2 round trips and the
second 401 response. -/
theorem C6_exhausted_returns_last_response (auth : NTLMAuth) (req : Request)
    (oracle : Nat → RTOutcome) (r : Nat → Response)
    (hok : ∀ i, oracle i = .ok (r i))
    (h401 : ∀ i, (r i).statusCode = 401)
    (hntlm : ∀ i, ExtAuth.isNTLMRequired (r i) = true)
    (hvalid : ExtAuth.validMethod req.method = true)
    (hengage : Part002.requiresNTLM req = true) :
    ExtAuth.NTLMAuthMiddleware auth req oracle =
      ⟨some (r auth.maxRetries), auth.maxRetries + 1⟩ ∧
    Part002.NTLMAuthMiddleware auth req oracle =
      ⟨some (r auth.maxRetries), auth.maxRetries + 1⟩ := by
  constructor
  · simp only [ExtAuth.NTLMAuthMiddleware, ExtAuth.createOutboundRequest_ok req hvalid,
               hok 0, h401 0, hntlm 0]
    cases hmr : auth.maxRetries with
    | zero => simp [ExtAuth.retryLoop]
    | succ m =>
      rw [ExtAuth.retryLoop_all_unauthorized req oracle r hvalid hok h401 m 1 (some (r 0))]
      rw [Nat.add_comm 1 m]
      simp
  · simp only [Part002.NTLMAuthMiddleware, hengage, if_true]
    rw [Part002.retryLoop_always_unauthorized oracle r hok h401 auth.maxRetries 0]
    simp

/-! ## Claim C1 — behaviour on transport/network errors -/

/-- Upstream behaviour: NTLM challenge on the first round trip, transport
error on the second, 200 on any later one. -/
def oracleErrMid : Nat → RTOutcome := fun n =>
  if n == 0 then .ok challEx else if n == 1 then .err else .ok okEx

/-- Counterexample to claim C1: with `maxRetries = 2`, a challenge on round
trip 1 and a transport error on round trip 2, the `ext/auth` middleware
performs a THIRD round trip and returns its 200 response — the network
error neither stops the relay nor produces the synthesized 407. -/
theorem C1_counterexample :
    oracleErrMid 1 = .err ∧
    ExtAuth.NTLMAuthMiddleware authEx reqEx oracleErrMid = ⟨some okEx, 3⟩ ∧
    okEx ≠ resp407 := by
  decide

/-- C1 (amended): a transport error on the FIRST round trip terminates
immediately with the synthesized 407 and no retry; but a transport error
inside the `ext/auth` retry loop is not terminal — the loop clears the
response and continues with the next attempt.  In the `part_002` variant a
transport error anywhere terminates immediately with the synthesized 407. -/
theorem C1_network_error_semantics (auth : NTLMAuth) (req : Request)
    (oracle : Nat → RTOutcome)
    (hvalid : ExtAuth.validMethod req.method = true) :
    (oracle 0 = .err →
        ExtAuth.NTLMAuthMiddleware auth req oracle = ⟨some resp407, 1⟩) ∧
    (∀ n count last, oracle count = .err →
        ExtAuth.retryLoop req oracle (n + 1) count last =
          ExtAuth.retryLoop req oracle n (count + 1) none) ∧
    (∀ n count, oracle count = .err →
        Part002.retryLoop oracle n count = ⟨some resp407, count + 1⟩) := by
  refine ⟨?_, ?_, ?_⟩
  · intro h0
    simp [ExtAuth.NTLMAuthMiddleware, ExtAuth.createOutboundRequest_ok req hvalid, h0]
  · intro n count last herr
    simp [ExtAuth.retryLoop, ExtAuth.createOutboundRequest_ok req hvalid, herr]
  · intro n count herr
    cases n <;> simp [Part002.retryLoop, herr]

/-- Witness for `C1_network_error_semantics` at concrete inputs. -/
theorem C1_network_error_semantics_witness :
    ExtAuth.NTLMAuthMiddleware authEx reqEx (fun _ => .err) = ⟨some resp407, 1⟩ ∧
    ExtAuth.retryLoop reqEx (fun _ => .err) 1 0 none =
      ExtAuth.retryLoop reqEx (fun _ => .err) 0 1 none ∧
    Part002.retryLoop (fun _ => .err) 3 0 = ⟨some resp407, 1⟩ :=
  ⟨(C1_network_error_semantics authEx reqEx (fun _ => .err) (by decide)).1 rfl,
   (C1_network_error_semantics authEx reqEx (fun _ => .err) (by decide)).2.1 0 0 none rfl,
   (C1_network_error_semantics authEx reqEx (fun _ => .err) (by decide)).2.2 3 0 rfl⟩

/-- Witness for `C6_exhausted_returns_last_response`: `maxRetries = 1`
against an upstream that always challenges — the same 401 comes back after
exactly 2 round trips. -/
theorem C6_exhausted_returns_last_response_witness :
    ExtAuth.NTLMAuthMiddleware authOne reqEx (fun _ => .ok challEx) =
      ⟨some challEx, 2⟩ ∧
    Part002.NTLMAuthMiddleware authOne reqEx (fun _ => .ok challEx) =
      ⟨some challEx, 2⟩ :=
  C6_exhausted_returns_last_response authOne reqEx _ (fun _ => challEx)
    (fun _ => rfl) (fun _ => rfl) (fun _ => rfl) (by decide) (by decide)

/-! ## Claim C5 — every path yields a concrete response? -/

/-- Upstream behaviour: NTLM challenge on the first round trip, transport
error on every later one. -/
def oracleErrTail : Nat → RTOutcome := fun n =>
  if n == 0 then .ok challEx else .err

/-- Counterexample to claim C5: with `maxRetries = 1`, a challenge on round
trip 1 and a transport error on the final retry, the `ext/auth` middleware
falls out of its loop holding the nil response and hands it back — an
absent response, not the synthesized 407. -/
theorem C5_counterexample :
    oracleErrTail 1 = .err ∧
    ExtAuth.NTLMAuthMiddleware authOne reqEx oracleErrTail = ⟨none, 2⟩ := by
  decide

/-- A request whose method is not a valid HTTP token, so that
`http.NewRequest` (and hence `createOutboundRequest`) fails. -/
def badReq : Request :=
  { method := "GE T", url := "http://example.test/", header := [],
    host := "example.test", requestURI := "/", bodyRef := none }

/-- When every round trip from `count` on errors out, the `ext/auth` retry
loop exhausts its budget and ends holding the nil response. -/
theorem ExtAuth.retryLoop_all_err (req : Request) (oracle : Nat → RTOutcome)
    (hvalid : ExtAuth.validMethod req.method = true) :
    ∀ (n count : Nat) (last : Option Response),
      (∀ i, count ≤ i → oracle i = .err) →
      ExtAuth.retryLoop req oracle (n + 1) count last = ⟨none, count + n + 1⟩ := by
  intro n
  induction n with
  | zero =>
    intro count last h
    simp [ExtAuth.retryLoop, ExtAuth.createOutboundRequest_ok req hvalid,
          h count le_rfl]
  | succ n ih =>
    intro count last h
    have hstep : ExtAuth.retryLoop req oracle (n + 1 + 1) count last =
        ExtAuth.retryLoop req oracle (n + 1) (count + 1) none := by
      simp [ExtAuth.retryLoop, ExtAuth.createOutboundRequest_ok req hvalid,
            h count le_rfl]
    rw [hstep, ih (count + 1) none (fun i hi => h i (by omega))]
    congr 1
    omega

/-- C5 (amended): a clone failure or a transport error on the first round
trip resolves to the synthesized 407 (status 407, plain-text content type,
body "NTLM Authentication Failed"); but when the first response is an NTLM
challenge and every retry round trip ends in a transport error, the
`ext/auth` middleware returns an ABSENT (nil) response after exhausting its
budget. -/
theorem C5_local_failure_resolution (auth : NTLMAuth) (req : Request)
    (oracle : Nat → RTOutcome) :
    (ExtAuth.validMethod req.method = false →
        ExtAuth.NTLMAuthMiddleware auth req oracle = ⟨some resp407, 0⟩) ∧
    (ExtAuth.validMethod req.method = true → oracle 0 = .err →
        ExtAuth.NTLMAuthMiddleware auth req oracle = ⟨some resp407, 1⟩) ∧
    (∀ r0, ExtAuth.validMethod req.method = true → oracle 0 = .ok r0 →
        r0.statusCode = 401 → ExtAuth.isNTLMRequired r0 = true →
        (∀ i, 1 ≤ i → oracle i = .err) → 1 ≤ auth.maxRetries →
        ExtAuth.NTLMAuthMiddleware auth req oracle = ⟨none, auth.maxRetries + 1⟩) ∧
    resp407.statusCode = 407 ∧
    headerValues resp407.header "Content-Type" = [contentTypeText] ∧
    resp407.body = "NTLM Authentication Failed" := by
  refine ⟨?_, ?_, ?_, by decide, by decide, by decide⟩
  · intro hbad
    simp [ExtAuth.NTLMAuthMiddleware, ExtAuth.createOutboundRequest, hbad]
  · intro hvalid h0
    simp [ExtAuth.NTLMAuthMiddleware, ExtAuth.createOutboundRequest_ok req hvalid, h0]
  · intro r0 hvalid h0 h401 hntlm herr hmr
    simp only [ExtAuth.NTLMAuthMiddleware,
               ExtAuth.createOutboundRequest_ok req hvalid, h0, h401, hntlm]
    cases hcase : auth.maxRetries with
    | zero => omega
    | succ m =>
      simp only [beq_self_eq_true, Bool.and_self, if_true]
      rw [ExtAuth.retryLoop_all_err req oracle hvalid m 1 (some r0)
            (fun i hi => herr i hi)]
      congr 1
      omega

/-- Witness for `C5_local_failure_resolution` at concrete inputs. -/
theorem C5_local_failure_resolution_witness :
    ExtAuth.NTLMAuthMiddleware authEx badReq oracleErrTail = ⟨some resp407, 0⟩ ∧
    ExtAuth.NTLMAuthMiddleware authEx reqEx (fun _ => .err) = ⟨some resp407, 1⟩ ∧
    ExtAuth.NTLMAuthMiddleware authOne reqEx oracleErrTail = ⟨none, 2⟩ :=
  ⟨(C5_local_failure_resolution authEx badReq oracleErrTail).1 (by decide),
   (C5_local_failure_resolution authEx reqEx (fun _ => .err)).2.1 (by decide) rfl,
   (C5_local_failure_resolution authOne reqEx oracleErrTail).2.2.1 challEx
     (by decide) rfl rfl rfl
     (fun i hi => by
       have h0 : (i == 0) = false := by
         cases i with
         | zero => omega
         | succ k => rfl
       simp [oracleErrTail, h0])
     (by decide)⟩

/-! ## Claim C7 — non-challenge responses -/

/-- Upstream behaviour: NTLM challenge, then a Basic-only 401, then 200. -/
def oracleBasicMid : Nat → RTOutcome := fun n =>
  if n == 0 then .ok challEx else if n == 1 then .ok basicEx else .ok okEx

/-- Counterexample to claim C7: `basicEx` (a 401 without the NTLM token) is
not an NTLM challenge, yet after receiving it on round trip 2 the
`ext/auth` middleware performs a THIRD round trip and returns that round
trip's 200 response instead of handing `basicEx` back. -/
theorem C7_counterexample :
    ExtAuth.isChallenge basicEx = false ∧
    ExtAuth.NTLMAuthMiddleware authEx reqEx oracleBasicMid = ⟨some okEx, 3⟩ := by
  decide

/-- C7 (amended): a FIRST response that is not an NTLM challenge is handed
back verbatim with no retries; inside the retry loop a non-401 response
terminates the loop and is handed back verbatim, but any 401 response —
with or without the NTLM token — is retried. -/
theorem C7_non_challenge_semantics (auth : NTLMAuth) (req : Request)
    (oracle : Nat → RTOutcome)
    (hvalid : ExtAuth.validMethod req.method = true) :
    (∀ r0, oracle 0 = .ok r0 → ExtAuth.isChallenge r0 = false →
        ExtAuth.NTLMAuthMiddleware auth req oracle = ⟨some r0, 1⟩) ∧
    (∀ n count last r, oracle count = .ok r → r.statusCode ≠ 401 →
        ExtAuth.retryLoop req oracle (n + 1) count last = ⟨some r, count + 1⟩) ∧
    (∀ n count last r, oracle count = .ok r → r.statusCode = 401 →
        ExtAuth.retryLoop req oracle (n + 1) count last =
          ExtAuth.retryLoop req oracle n (count + 1) (some r)) := by
  refine ⟨?_, ?_, ?_⟩
  · intro r0 h0 hch
    simp only [ExtAuth.isChallenge] at hch
    simp [ExtAuth.NTLMAuthMiddleware, ExtAuth.createOutboundRequest_ok req hvalid,
          h0, hch]
  · intro n count last r hok h4
    simp [ExtAuth.retryLoop, ExtAuth.createOutboundRequest_ok req hvalid, hok, h4]
  · intro n count last r hok h401
    simp [ExtAuth.retryLoop, ExtAuth.createOutboundRequest_ok req hvalid, hok, h401]

/-- Witness for `C7_non_challenge_semantics` at concrete inputs. -/
theorem C7_non_challenge_semantics_witness :
    ExtAuth.NTLMAuthMiddleware authEx reqEx (fun _ => .ok okEx) = ⟨some okEx, 1⟩ ∧
    ExtAuth.retryLoop reqEx (fun _ => .ok okEx) 2 1 none = ⟨some okEx, 2⟩ ∧
    ExtAuth.retryLoop reqEx (fun _ => .ok basicEx) 2 1 none =
      ExtAuth.retryLoop reqEx (fun _ => .ok basicEx) 1 2 (some basicEx) :=
  ⟨(C7_non_challenge_semantics authEx reqEx (fun _ => .ok okEx) (by decide)).1
      okEx rfl (by decide),
   (C7_non_challenge_semantics authEx reqEx (fun _ => .ok okEx) (by decide)).2.1
      1 1 none okEx rfl (by decide),
   (C7_non_challenge_semantics authEx reqEx (fun _ => .ok basicEx) (by decide)).2.2
      1 1 none basicEx rfl (by decide)⟩

/-! ## Claim C4 — replay clone and body buffering -/

/-- An inbound POST request whose body is stream 0. -/
def breqEx : Request :=
  { method := "POST", url := "http://example.test/upload", header := [],
    host := "example.test", requestURI := "/upload", bodyRef := some 0 }

/-- The clone `createOutboundRequest` builds from `breqEx`: same method,
target and host, `RequestURI` cleared — and the SAME body stream 0. -/
def cloneEx : Request :=
  { method := "POST", url := "http://example.test/upload", header := [],
    host := "example.test", requestURI := "", bodyRef := some 0 }

/-- The heap holding `breqEx`'s unread body stream with bytes 1,2,3. -/
def heapEx : StreamHeap := [(0, { bytes := [1, 2, 3], pos := 0 })]

/-- Counterexample to claim C4: the clone points at the very stream of the
original (shared body storage); transmitting the clone once advances that
stream to its end — mutating the original's body stream — and any further
transmission of a (re-)clone or of the original reads zero bytes, not the
original body. -/
theorem C4_counterexample :
    ExtAuth.createOutboundRequest breqEx = .ok cloneEx ∧
    cloneEx.bodyRef = breqEx.bodyRef ∧
    (sendBody heapEx cloneEx).1 = [1, 2, 3] ∧
    (sendBody heapEx cloneEx).2 = [(0, { bytes := [1, 2, 3], pos := 3 })] ∧
    (sendBody (sendBody heapEx cloneEx).2 cloneEx).1 = [] ∧
    (sendBody (sendBody heapEx cloneEx).2 breqEx).1 = [] :=
  ⟨rfl, by decide, by decide, by decide, by decide, by decide⟩

/-- C4 (amended): the clone copies method, target, header map and host and
clears `RequestURI`, but its body is the original's body stream passed by
reference — no buffering happens: transmitting the clone over a fresh
stream yields the body bytes once, drains the shared stream, and any
subsequent read of the original request's body (for example by a re-clone
on retry) yields no bytes. -/
theorem C4_clone_shares_body_stream (req : Request)
    (hvalid : ExtAuth.validMethod req.method = true) :
    ExtAuth.createOutboundRequest req =
      .ok { method := req.method, url := req.url, header := req.header,
            host := req.host, requestURI := "", bodyRef := req.bodyRef } ∧
    (∀ ref bytes, req.bodyRef = some ref →
        (sendBody [(ref, { bytes := bytes, pos := 0 })]
            { method := req.method, url := req.url, header := req.header,
              host := req.host, requestURI := "", bodyRef := req.bodyRef }).1 =
          bytes ∧
        (sendBody (sendBody [(ref, { bytes := bytes, pos := 0 })]
            { method := req.method, url := req.url, header := req.header,
              host := req.host, requestURI := "", bodyRef := req.bodyRef }).2
          req).1 = []) := by
  refine ⟨ExtAuth.createOutboundRequest_ok req hvalid, ?_⟩
  intro ref bytes href
  simp [sendBody, readAllBody, href, List.find?]

/-- Witness for `C4_clone_shares_body_stream` at concrete inputs. -/
theorem C4_clone_shares_body_stream_witness :
    ExtAuth.createOutboundRequest breqEx = .ok cloneEx ∧
    (sendBody heapEx cloneEx).1 = [1, 2, 3] ∧
    (sendBody (sendBody heapEx cloneEx).2 breqEx).1 = [] :=
  ⟨(C4_clone_shares_body_stream breqEx (by decide)).1,
   ((C4_clone_shares_body_stream breqEx (by decide)).2 0 [1, 2, 3] rfl).1,
   ((C4_clone_shares_body_stream breqEx (by decide)).2 0 [1, 2, 3] rfl).2⟩

/-! ## Claims C8, C9, C10 — the per-host client cache -/

/-- On a cache hit, `getNTLMClientForHost` returns the cached client and
leaves the cache untouched, whatever base transport and credentials the
caller supplies. -/
theorem getNTLMClientForHost_hit (host : String) (base : Nat)
    (auth : NTLMAuth) (st : CacheState) (c : HTTPClient)
    (h : lookupEntry st.entries host = some c) :
    getNTLMClientForHost host base auth st = (c, st) := by
  simp [getNTLMClientForHost, h]

/-- A freshly stored binding is what a lookup of the same host finds. -/
theorem lookupEntry_store_self (entries : List (String × HTTPClient))
    (host : String) (c : HTTPClient) :
    lookupEntry (storeEntry entries host c) host = some c := by
  simp [lookupEntry, storeEntry, List.find?]

/-- Filtering out the entries of one host does not change what a find for a
different host sees. -/
theorem find_filter_other (h1 h2 : String) (hb : (h1 == h2) = false) :
    ∀ es : List (String × HTTPClient),
      List.find? (fun e => e.1 == h2) (List.filter (fun e => !(e.1 == h1)) es) =
        List.find? (fun e => e.1 == h2) es := by
  intro es
  induction es with
  | nil => rfl
  | cons e es ih =>
    by_cases he1 : (e.1 == h1) = true
    · have he2 : (e.1 == h2) = false := by
        rw [show e.1 = h1 from eq_of_beq he1]
        exact hb
      rw [List.filter_cons_of_neg (by simp [he1]),
          List.find?_cons_of_neg es (by simp [he2])]
      exact ih
    · have he1f : (e.1 == h1) = false := by
        cases hx : (e.1 == h1) with
        | true => exact absurd hx he1
        | false => rfl
      by_cases he2 : (e.1 == h2) = true
      · rw [List.filter_cons_of_pos (by simp [he1f]),
            List.find?_cons_of_pos _ (by simp [he2]),
            List.find?_cons_of_pos es (by simp [he2])]
      · have he2f : (e.1 == h2) = false := by
          cases hx : (e.1 == h2) with
          | true => exact absurd hx he2
          | false => rfl
        rw [List.filter_cons_of_pos (by simp [he1f]),
            List.find?_cons_of_neg _ (by simp [he2f]),
            List.find?_cons_of_neg es (by simp [he2f])]
        exact ih

/-- Storing under a different host does not change what a lookup finds. -/
theorem lookupEntry_store_ne (entries : List (String × HTTPClient))
    (h1 h2 : String) (c : HTTPClient) (hne : h1 ≠ h2) :
    lookupEntry (storeEntry entries h1 c) h2 = lookupEntry entries h2 := by
  have hb : (h1 == h2) = false := beq_eq_false_iff_ne.mpr hne
  simp only [lookupEntry, storeEntry]
  rw [List.find?_cons_of_neg _ (by simp [hb]), find_filter_other h1 h2 hb entries]

/-- Once a host has a cached client, every further call of the sequence for
that host is a pure cache hit: the same instance comes back each time and
the state never changes. -/
theorem runSeqCalls_cached (host : String) (st : CacheState) (c : HTTPClient)
    (h : lookupEntry st.entries host = some c) :
    ∀ calls : List (Nat × NTLMAuth),
      runSeqCalls host st calls = (List.replicate calls.length c, st) := by
  intro calls
  induction calls with
  | nil => simp [runSeqCalls]
  | cons a rest ih =>
    obtain ⟨base, auth⟩ := a
    simp [runSeqCalls, getNTLMClientForHost_hit host base auth st c h, ih,
          List.replicate]

/-- C8 (confirmed): for any sequence of `getOrCreate` calls for one host —
with the same or different base transports and credentials — starting from
a cache with no entry for that host, the first call constructs and stores
exactly one client (the allocation counter advances by exactly 1) and every
call returns that same instance (the same heap object, so reference
equality). -/
theorem C8_sequential_cache_identity (host : String) (st : CacheState)
    (base0 : Nat) (auth0 : NTLMAuth) (rest : List (Nat × NTLMAuth))
    (hcold : lookupEntry st.entries host = none) :
    runSeqCalls host st ((base0, auth0) :: rest) =
      (List.replicate (rest.length + 1) (mkNtlmClient auth0 base0 st.nextObj),
       { entries := storeEntry st.entries host (mkNtlmClient auth0 base0 st.nextObj),
         nextObj := st.nextObj + 1 }) ∧
    (runSeqCalls host st ((base0, auth0) :: rest)).2.nextObj = st.nextObj + 1 := by
  have hfirst : getNTLMClientForHost host base0 auth0 st =
      (mkNtlmClient auth0 base0 st.nextObj,
       { entries := storeEntry st.entries host (mkNtlmClient auth0 base0 st.nextObj),
         nextObj := st.nextObj + 1 }) := by
    simp [getNTLMClientForHost, hcold]
  have hrest := runSeqCalls_cached host
      { entries := storeEntry st.entries host (mkNtlmClient auth0 base0 st.nextObj),
        nextObj := st.nextObj + 1 }
      (mkNtlmClient auth0 base0 st.nextObj)
      (lookupEntry_store_self st.entries host (mkNtlmClient auth0 base0 st.nextObj))
      rest
  constructor
  · simp [runSeqCalls, hfirst, hrest, List.replicate]
  · simp [runSeqCalls, hfirst, hrest]

/-- A second set of credentials, differing from `authEx` in every field. -/
def authAlt : NTLMAuth :=
  { domain := "OTHER", username := "bob", password := "secret", maxRetries := 5 }

/-- Witness for `C8_sequential_cache_identity`: three sequential calls for
one host with different base transports and credentials hand out the one
client allocated by the first call, and allocate nothing further. -/
theorem C8_sequential_cache_identity_witness :
    runSeqCalls "host.test" { entries := [], nextObj := 0 }
        [(1, authEx), (2, authAlt), (3, authOne)] =
      (List.replicate 3 (mkNtlmClient authEx 1 0),
       { entries := storeEntry [] "host.test" (mkNtlmClient authEx 1 0),
         nextObj := 1 }) ∧
    (runSeqCalls "host.test" { entries := [], nextObj := 0 }
        [(1, authEx), (2, authAlt), (3, authOne)]).2.nextObj = 1 :=
  C8_sequential_cache_identity "host.test" { entries := [], nextObj := 0 }
    1 authEx [(2, authAlt), (3, authOne)] rfl

/-- Any sequence of `getNTLMClientForHost` calls — for any hosts, base
transports and credentials — preserves an existing cache binding: nothing
ever updates or evicts it. -/
theorem runAnyCalls_preserves (host : String) (c : HTTPClient) :
    ∀ (calls : List (String × Nat × NTLMAuth)) (st : CacheState),
      lookupEntry st.entries host = some c →
      lookupEntry (runAnyCalls st calls).entries host = some c := by
  intro calls
  induction calls with
  | nil =>
    intro st h
    simpa [runAnyCalls] using h
  | cons a rest ih =>
    intro st h
    obtain ⟨h2, base, auth⟩ := a
    simp only [runAnyCalls]
    apply ih
    cases hload : lookupEntry st.entries h2 with
    | some c2 =>
      rw [getNTLMClientForHost_hit h2 base auth st c2 hload]
      exact h
    | none =>
      have hne : h2 ≠ host := by
        intro heq
        rw [heq, h] at hload
        exact Option.noConfusion hload
      simp only [getNTLMClientForHost, hload]
      rw [lookupEntry_store_ne st.entries h2 host
            (mkNtlmClient auth base st.nextObj) hne]
      exact h

/-- C10 (confirmed): the cache is keyed by host only and write-once.  A hit
returns the cached client unchanged whatever credentials and base transport
the call supplies, and leaves the state untouched; no later call for any
host ever updates or evicts the binding; and the client constructed by the
first (cold) caller carries exactly that caller's domain, username,
password and base transport, with a zero (indefinite) timeout. -/
theorem C10_cache_keyed_by_host_only (host : String) (st st2 : CacheState)
    (c : HTTPClient) (base base2 : Nat) (auth auth2 : NTLMAuth)
    (calls : List (String × Nat × NTLMAuth))
    (hhit : lookupEntry st.entries host = some c)
    (hcold : lookupEntry st2.entries host = none) :
    getNTLMClientForHost host base auth st = (c, st) ∧
    lookupEntry (runAnyCalls st calls).entries host = some c ∧
    getNTLMClientForHost host base2 auth2 st2 =
      (mkNtlmClient auth2 base2 st2.nextObj,
       { entries := storeEntry st2.entries host (mkNtlmClient auth2 base2 st2.nextObj),
         nextObj := st2.nextObj + 1 }) ∧
    (mkNtlmClient auth2 base2 st2.nextObj).transport =
      { domain := auth2.domain, user := auth2.username,
        password := auth2.password, roundTripper := base2 } ∧
    (mkNtlmClient auth2 base2 st2.nextObj).timeout = 0 := by
  refine ⟨getNTLMClientForHost_hit host base auth st c hhit,
          runAnyCalls_preserves host c calls st hhit, ?_, rfl, rfl⟩
  simp [getNTLMClientForHost, hcold]

/-- The cache state holding exactly one binding, of client `cEx0` for
"host.test". -/
def stOne : CacheState :=
  { entries := storeEntry [] "host.test" (mkNtlmClient authEx 1 0), nextObj := 1 }

/-- Witness for `C10_cache_keyed_by_host_only` at concrete inputs: a hit
with different credentials returns the original client; the binding
survives later calls for other and the same hosts; and a cold call installs
the caller's credentials with zero timeout. -/
theorem C10_cache_keyed_by_host_only_witness :
    getNTLMClientForHost "host.test" 9 authAlt stOne =
      (mkNtlmClient authEx 1 0, stOne) ∧
    lookupEntry (runAnyCalls stOne
        [("other.test", 4, authAlt), ("host.test", 5, authOne)]).entries
      "host.test" = some (mkNtlmClient authEx 1 0) ∧
    getNTLMClientForHost "host.test" 9 authAlt { entries := [], nextObj := 0 } =
      (mkNtlmClient authAlt 9 0,
       { entries := storeEntry [] "host.test" (mkNtlmClient authAlt 9 0),
         nextObj := 1 }) ∧
    (mkNtlmClient authAlt 9 0).transport =
      { domain := "OTHER", user := "bob", password := "secret",
        roundTripper := 9 } ∧
    (mkNtlmClient authAlt 9 0).timeout = 0 :=
  C10_cache_keyed_by_host_only "host.test" stOne { entries := [], nextObj := 0 }
    (mkNtlmClient authEx 1 0) 9 9 authAlt authAlt
    [("other.test", 4, authAlt), ("host.test", 5, authOne)] (by decide) rfl

/-- Both threads poised to run `getNTLMClientForHost` on an empty cache. -/
def coldConc : ConcState :=
  { cache := { entries := [], nextObj := 0 }, p1 := .start, p2 := .start }

/-- The racy schedule: both threads `Load` (both miss), thread 1 constructs
and stores, then thread 2 — still holding its stale miss — constructs and
stores over it. -/
def raceSched : List Bool := [true, false, true, true, false, false]

/-- The cache entries after the racy schedule: thread 1's client stored,
then overwritten by thread 2's. -/
def raceEntries (host : String) (base : Nat) (auth : NTLMAuth)
    (st : CacheState) : List (String × HTTPClient) :=
  storeEntry (storeEntry st.entries host (mkNtlmClient auth base st.nextObj))
    host (mkNtlmClient auth base (st.nextObj + 1))

/-- Counterexample to claim C9: `getNTLMClientForHost` is a separate
`sync.Map.Load` followed by a separate `sync.Map.Store`, and under the racy
interleaving on a cold cache TWO clients are constructed (the allocation
counter ends at 2) and the two callers end up holding DISTINCT instances —
not "exactly one transport instance is constructed and survives". -/
theorem C9_counterexample :
    (runSched "host.test" 7 authEx raceSched coldConc).cache.nextObj = 2 ∧
    (runSched "host.test" 7 authEx raceSched coldConc).p1 =
      .done (mkNtlmClient authEx 7 0) ∧
    (runSched "host.test" 7 authEx raceSched coldConc).p2 =
      .done (mkNtlmClient authEx 7 1) ∧
    mkNtlmClient authEx 7 0 ≠ mkNtlmClient authEx 7 1 := by
  decide

/-- C9 (amended): the get-or-create is a non-atomic check-then-store (the
`Load` and the `Store` are separately atomic steps with construction in
between).  For every cold host, under the schedule where both threads load
before either stores, two distinct clients are constructed, each caller
returns holding its own, and the second store overwrites the first, so the
loser's transport is the one handed to thread 1 yet absent from the cache. -/
theorem C9_load_then_store_race (host : String) (base : Nat)
    (auth : NTLMAuth) (st : CacheState)
    (hcold : lookupEntry st.entries host = none) :
    runSched host base auth raceSched
        { cache := st, p1 := .start, p2 := .start } =
      { cache := { entries := raceEntries host base auth st,
                   nextObj := st.nextObj + 2 },
        p1 := .done (mkNtlmClient auth base st.nextObj),
        p2 := .done (mkNtlmClient auth base (st.nextObj + 1)) } ∧
    mkNtlmClient auth base st.nextObj ≠ mkNtlmClient auth base (st.nextObj + 1) ∧
    lookupEntry (raceEntries host base auth st) host =
      some (mkNtlmClient auth base (st.nextObj + 1)) := by
  refine ⟨?_, ?_, lookupEntry_store_self _ _ _⟩
  · simp [raceSched, runSched, schedStep, phaseStep, hcold, raceEntries,
          Nat.add_assoc]
  · intro heq
    have hobj : st.nextObj = st.nextObj + 1 := congrArg HTTPClient.objId heq
    omega

/-- Witness for `C9_load_then_store_race` at concrete inputs. -/
theorem C9_load_then_store_race_witness :
    runSched "host.test" 7 authEx raceSched coldConc =
      { cache := { entries := raceEntries "host.test" 7 authEx
                     { entries := [], nextObj := 0 },
                   nextObj := 2 },
        p1 := .done (mkNtlmClient authEx 7 0),
        p2 := .done (mkNtlmClient authEx 7 1) } ∧
    mkNtlmClient authEx 7 0 ≠ mkNtlmClient authEx 7 1 ∧
    lookupEntry (raceEntries "host.test" 7 authEx
        { entries := [], nextObj := 0 }) "host.test" =
      some (mkNtlmClient authEx 7 1) :=
  C9_load_then_store_race "host.test" 7 authEx
    { entries := [], nextObj := 0 } rfl
